import Mathlib

/-!
Shallow embedding of `packages/plugin-ext/src/hosted/node/plugin-host.ts`:
the plugin host bootstrap, its inbound message handler, and the
`init` / `loadPlugin` behaviour of the `PluginManagerExtImpl` argument object.

JavaScript effects are made explicit:
  * dynamic module loading (`require`) is a parameter `env : ReqEnv`
    mapping a path to either a thrown error or a loaded module;
  * observable actions (console logging, `require` calls, hook
    invocations, pushes into the two result buckets) are recorded
    in an event trace, in execution order;
  * a thrown JavaScript exception is an `Except.error` / `Option.some`
    result; `undefined` is `Option.none` (for strings) or
    `JsValue.undef` (for arbitrary values).
-/

namespace PluginHost

/-- A thrown JavaScript error value. -/
inductive JsErr where
  /-- e.g. invoking `undefined` as a function, or `require(undefined)`. -/
  | typeError
  /-- an exception thrown by a `doInitialization` / `doLoad` hook -/
  | hookThrew
  /-- an arbitrary thrown error carrying a message -/
  | thrown (msg : String)
  deriving DecidableEq

/-- The exports object of a loaded backend module, as far as the host
inspects it: the `doInitialization` and `doLoad` properties.
`none` means the property is absent (`undefined`); `some b` means a
function is present, and `b` tells whether invoking it throws. -/
structure JsModule where
  doInitialization : Option Bool
  doLoad : Option Bool
  deriving DecidableEq

/-- A runtime JavaScript value, as far as `loadPlugin`'s result is
inspected: `undefined` or a module exports object. -/
inductive JsValue where
  | undef
  | module (m : JsModule)
  deriving DecidableEq

/-- The ambient `require` implementation: for a path, either the loaded
module's exports or the error `require` throws (module not found, or a
throw from the module's top-level code). -/
abbrev ReqEnv := String → Except JsErr JsModule

/-- `require` applied to a possibly-`undefined` argument
(`require(undefined)` throws a `TypeError`). -/
def requireOpt (env : ReqEnv) : Option String → Except JsErr JsModule
  | none => .error .typeError
  | some p => env p

/-- JavaScript truthiness of a `string | undefined` value:
`undefined` and the empty string are falsy. -/
def truthy : Option String → Bool
  | none => false
  | some s => !(s == "")

/-- `PluginModel.entryPoint` from `common/plugin-protocol.ts`:
`{ frontend?: string; backend?: string; }`. -/
structure EntryPoint where
  frontend : Option String
  backend : Option String
  deriving DecidableEq

/-- The part of `PluginModel` (declared in `common/plugin-protocol.ts`)
that `plugin-host.ts` reads: its entry points.  The remaining metadata
fields (name, publisher, version, ...) are never inspected here and are
not modelled. -/
structure PluginModel where
  entryPoint : EntryPoint
  deriving DecidableEq

/-- The part of `PluginLifecycle` (declared in `common/plugin-protocol.ts`)
that `plugin-host.ts` reads: the optional initializer module paths. -/
structure PluginLifecycle where
  frontendInitPath : Option String
  backendInitPath : Option String
  deriving DecidableEq

/-- `PluginMetadata` from `common/plugin-protocol.ts`: the descriptor the
main process sends for each extension.  `source` (the raw package) is
opaque to the host and is modelled as a tag. -/
structure PluginMetadata where
  model : PluginModel
  lifecycle : PluginLifecycle
  source : Nat
  deriving DecidableEq

/-- `Plugin` from `api/plugin-api.ts`, as constructed by `init`.  The
string fields are built with TypeScript non-null assertions (`!`) that
do not check at runtime, so they may hold `undefined`: both paths are
`Option String`. -/
structure Plugin where
  pluginPath : Option String
  initPath : Option String
  model : PluginModel
  lifecycle : PluginLifecycle
  rowModel : Nat
  deriving DecidableEq

/-- One observable action of the host, in execution order. -/
inductive Event where
  /-- `console.log('PLUGIN_HOST(pid): initializing(contextPath)')` -/
  | logInitializing (contextPath : String)
  /-- `console.log('PLUGIN_HOST(pid): loadPlugin(pluginPath)')` -/
  | logLoadPlugin (pluginPath : Option String)
  /-- a `require(path)` call for an initializer module -/
  | requireMod (path : String)
  /-- `backendInit.doInitialization(rpc, pluginManager, plg)` invoked -/
  | doInitialization (path : String) (plg : PluginMetadata)
  /-- `backendInit.doLoad(rpc, plugin)` invoked -/
  | doLoad (path : String) (p : Plugin)
  /-- the `require(plugin.pluginPath)` call for the main entry module -/
  | requireMain (path : Option String)
  /-- `console.error(e)` in a catch block -/
  | consoleError (e : JsErr)
  /-- `result.push(plugin)` — appended to the backend bucket -/
  | pushBackend (p : Plugin)
  /-- `foreign.push({...})` — appended to the frontend bucket -/
  | pushFrontend (p : Plugin)
  deriving DecidableEq

/-- The `initialize` helper of `plugin-host.ts`:

```ts
function initialize(contextPath, pluginMetadata) {
    console.log('PLUGIN_HOST(pid): initializing(contextPath)');
    const backendInit = require(contextPath);
    backendInit.doInitialization(rpc, pluginManager, pluginMetadata);
}
```

Returns the trace and `some e` when the body throws (no catch here):
a `require` failure, or invoking an absent `doInitialization`
(a `TypeError`), or a throw from the hook itself. -/
def initializePlugin (env : ReqEnv) (contextPath : String)
    (pluginMetadata : PluginMetadata) : List Event × Option JsErr :=
  let ev := [Event.logInitializing contextPath, Event.requireMod contextPath]
  match env contextPath with
  | .error e => (ev, some e)
  | .ok backendInit =>
    match backendInit.doInitialization with
    | none => (ev, some .typeError)
    | some throws =>
      (ev ++ [Event.doInitialization contextPath pluginMetadata],
       if throws then some .hookThrew else none)

/-- The backend `Plugin` object literal built in `init`'s backend branch:
`pluginPath` is `entryPoint.backend!`; `initPath` is the (truthy)
`backendInitPath`, or `''` when that was falsy. -/
def mkBackendPlugin (plg : PluginMetadata) : Plugin :=
  { pluginPath := plg.model.entryPoint.backend
    initPath :=
      if truthy plg.lifecycle.backendInitPath then plg.lifecycle.backendInitPath
      else some ""
    model := plg.model
    lifecycle := plg.lifecycle
    rowModel := plg.source }

/-- The frontend `Plugin` object literal built in `init`'s else branch:
`pluginPath := entryPoint.frontend!` and
`initPath := lifecycle.frontendInitPath!` — runtime-unchecked, so both
may be `undefined` (`none`). -/
def mkForeignPlugin (plg : PluginMetadata) : Plugin :=
  { pluginPath := plg.model.entryPoint.frontend
    initPath := plg.lifecycle.frontendInitPath
    model := plg.model
    lifecycle := plg.lifecycle
    rowModel := plg.source }

/-- One iteration of `init`'s `for (const plg of raw)` loop body.
Result: the events of this iteration and, unless the iteration threw,
which bucket was pushed (`true` = backend `result`, `false` = frontend
`foreign`) together with the pushed `Plugin`. -/
def initStep (env : ReqEnv) (plg : PluginMetadata) :
    List Event × Except JsErr (Bool × Plugin) :=
  if truthy plg.model.entryPoint.backend then
    if truthy plg.lifecycle.backendInitPath then
      let path := plg.lifecycle.backendInitPath.getD ""
      let r := initializePlugin env path plg
      match r.2 with
      | some e => (r.1, .error e)
      | none => (r.1 ++ [Event.pushBackend (mkBackendPlugin plg)],
                 .ok (true, mkBackendPlugin plg))
    else
      ([Event.pushBackend (mkBackendPlugin plg)], .ok (true, mkBackendPlugin plg))
  else
    ([Event.pushFrontend (mkForeignPlugin plg)], .ok (false, mkForeignPlugin plg))

/-- `init(raw: PluginMetadata[]): [Plugin[], Plugin[]]` of the
`PluginManagerExtImpl` argument object: partitions the descriptors into
`(result, foreign)`.  The loop body has no catch, so a throw from an
initializer aborts the whole call (`Except.error`). -/
def init (env : ReqEnv) : List PluginMetadata →
    List Event × Except JsErr (List Plugin × List Plugin)
  | [] => ([], .ok ([], []))
  | plg :: rest =>
    let s := initStep env plg
    match s.2 with
    | .error e => (s.1, .error e)
    | .ok (isB, p) =>
      let r := init env rest
      match r.2 with
      | .error e => (s.1 ++ r.1, .error e)
      | .ok (res, fore) =>
        (s.1 ++ r.1,
         .ok (if isB then p :: res else res, if isB then fore else p :: fore))

/-- `loadPlugin(contextPath, plugin)` of the `PluginManagerExtImpl`
argument object:

```ts
loadPlugin(contextPath, plugin): void {
    console.log('PLUGIN_HOST(pid): loadPlugin(plugin.pluginPath)');
    const backendInit = require(contextPath);
    if (backendInit.doLoad) { backendInit.doLoad(rpc, plugin); }
    try { return require(plugin.pluginPath); }
    catch (e) { console.error(e); }
}
```

Only the final `require` is inside the try; a throw from
`require(contextPath)` or from `doLoad` propagates (`Except.error`).
On normal completion the returned JavaScript value is the main module's
exports, or `undefined` after a caught failure. -/
def loadPlugin (env : ReqEnv) (contextPath : String) (plugin : Plugin) :
    List Event × Except JsErr JsValue :=
  let ev := [Event.logLoadPlugin plugin.pluginPath, Event.requireMod contextPath]
  match env contextPath with
  | .error e => (ev, .error e)
  | .ok backendInit =>
    let afterLoad : List Event × Option JsErr :=
      match backendInit.doLoad with
      | none => (ev, none)
      | some throws =>
        (ev ++ [Event.doLoad contextPath plugin],
         if throws then some .hookThrew else none)
    match afterLoad.2 with
    | some e => (afterLoad.1, .error e)
    | none =>
      let ev2 := afterLoad.1 ++ [Event.requireMain plugin.pluginPath]
      match requireOpt env plugin.pluginPath with
      | .ok m => (ev2, .ok (JsValue.module m))
      | .error e => (ev2 ++ [Event.consoleError e], .ok JsValue.undef)

/-- A decoded inbound frame (the result of `JSON.parse`); opaque here. -/
abbrev Frame := Nat

/-- One emitter subscriber: handles a frame, `some e` when it throws. -/
abbrev Subscriber := Frame → Option JsErr

/-- Modelled from the spec: the `Emitter` class of
`@theia/core/lib/common/event` is imported, not part of this tree.
§4.2 Message Emitter: a successfully decoded frame "is published
synchronously to all current subscribers"; a synchronous throw from a
subscriber ends the dispatch and propagates to `fire`'s caller.
Returns the indices of the subscribers that were invoked (in order) and
the propagated error, if any. -/
def fireFrom (f : Frame) (i : Nat) : List Subscriber → List Nat × Option JsErr
  | [] => ([], none)
  | s :: rest =>
    match s f with
    | some e => ([i], some e)
    | none =>
      let r := fireFrom f (i + 1) rest
      (i :: r.1, r.2)

/-- Modelled from the spec: `emitter.fire(v)` dispatches `v` to every
subscriber in subscription order (see `fireFrom`). -/
def fire (subs : List Subscriber) (f : Frame) : List Nat × Option JsErr :=
  fireFrom f 0 subs

/-- The body of the `process.on('message', ...)` handler, before its
catch: `emitter.fire(JSON.parse(message))`.  `JSON.parse` is an
external builtin, passed in as `parse`.  Returns which subscribers
received the decoded frame, and the error thrown by the body, if any. -/
def onMessageBody (parse : String → Except JsErr Frame)
    (subs : List Subscriber) (msg : String) : List Nat × Option JsErr :=
  match parse msg with
  | .error e => ([], some e)
  | .ok f => fire subs f

/-- Outcome of one inbound message: which subscribers received the frame,
what the catch logged via `console.error`, and any exception escaping the
handler (which would crash the single-threaded host process). -/
structure HandlerOutcome where
  delivered : List Nat
  logged : Option JsErr
  uncaught : Option JsErr
  deriving DecidableEq

/-- The `process.on('message', ...)` handler of `plugin-host.ts`:

```ts
try { emitter.fire(JSON.parse(message)); }
catch (e) { console.error(e); }
```

The try encloses the whole body, so any throw is converted into a
`console.error` log and nothing escapes. -/
def onMessage (parse : String → Except JsErr Frame)
    (subs : List Subscriber) (msg : String) : HandlerOutcome :=
  let r := onMessageBody parse subs msg
  match r.2 with
  | some e => { delivered := r.1, logged := some e, uncaught := none }
  | none => { delivered := r.1, logged := none, uncaught := none }

/-! ### Concrete sample data (descriptors, modules, environments) -/

/-- Descriptor `{backend: "a.js"}`: backend entry point, no initializer. -/
def plgA : PluginMetadata :=
  { model := { entryPoint := { frontend := none, backend := some "a.js" } }
    lifecycle := { frontendInitPath := none, backendInitPath := none }
    source := 0 }

/-- Descriptor `{frontend: "b.js"}`: frontend entry point only. -/
def plgB : PluginMetadata :=
  { model := { entryPoint := { frontend := some "b.js", backend := none } }
    lifecycle := { frontendInitPath := none, backendInitPath := none }
    source := 1 }

/-- Descriptor `{backend: "c.js", backendInitPath: "c-init.js"}`. -/
def plgC : PluginMetadata :=
  { model := { entryPoint := { frontend := none, backend := some "c.js" } }
    lifecycle := { frontendInitPath := none, backendInitPath := some "c-init.js" }
    source := 2 }

/-- A descriptor declaring neither a backend nor a frontend entry point. -/
def plgNeither : PluginMetadata :=
  { model := { entryPoint := { frontend := none, backend := none } }
    lifecycle := { frontendInitPath := none, backendInitPath := none }
    source := 3 }

/-- A module exporting a non-throwing `doInitialization` and no `doLoad`. -/
def modInitOnly : JsModule := { doInitialization := some false, doLoad := none }

/-- A module exporting neither hook. -/
def modPlain : JsModule := { doInitialization := none, doLoad := none }

/-- A module whose `doLoad` hook throws when invoked. -/
def modDoLoadThrows : JsModule := { doInitialization := none, doLoad := some true }

/-- An environment in which every path resolves to `modInitOnly`. -/
def envInit : ReqEnv := fun _ => .ok modInitOnly

/-- An environment in which every path resolves to `modPlain`. -/
def envPlain : ReqEnv := fun _ => .ok modPlain

/-- An environment in which every `require` throws. -/
def envFailAll : ReqEnv := fun _ => .error (.thrown "not found")

/-- An environment in which every path resolves to `modDoLoadThrows`. -/
def envDoLoadThrows : ReqEnv := fun _ => .ok modDoLoadThrows

/-- `require` succeeds for "ctx.js" (the initializer) but throws for any
other path — in particular for a plugin's main entry module. -/
def envMainFails : ReqEnv :=
  fun p => if p == "ctx.js" then .ok modPlain else .error (.thrown "load failed")

/-- A resolved backend plugin whose main entry module is "main.js". -/
def samplePlugin : Plugin :=
  { pluginPath := some "main.js", initPath := some "", model := plgA.model
    lifecycle := plgA.lifecycle, rowModel := 0 }

/-! ### Helper lemmas -/

/-- A descriptor without a truthy backend entry point is handled entirely
by the else branch: one push into the frontend bucket, no other events,
no failure, whatever the module environment. -/
theorem initStep_frontend (env : ReqEnv) (plg : PluginMetadata)
    (hb : truthy plg.model.entryPoint.backend = false) :
    initStep env plg =
      ([Event.pushFrontend (mkForeignPlugin plg)], .ok (false, mkForeignPlugin plg)) := by
  simp [initStep, hb]

/-- A backend descriptor with a falsy initializer path is handled without
touching the module environment: one push into the backend bucket. -/
theorem initStep_backend_noInit (env : ReqEnv) (plg : PluginMetadata)
    (hb : truthy plg.model.entryPoint.backend = true)
    (hi : truthy plg.lifecycle.backendInitPath = false) :
    initStep env plg =
      ([Event.pushBackend (mkBackendPlugin plg)], .ok (true, mkBackendPlugin plg)) := by
  simp [initStep, hb, hi]

/-- Whenever an iteration of `init`'s loop completes without throwing, the
bucket flag is the truthiness of the backend entry point and the pushed
plugin is the corresponding object literal. -/
theorem initStep_ok_spec (env : ReqEnv) (plg : PluginMetadata)
    (seg : List Event) (isB : Bool) (p : Plugin)
    (h : initStep env plg = (seg, .ok (isB, p))) :
    isB = truthy plg.model.entryPoint.backend ∧
    p = (if truthy plg.model.entryPoint.backend then mkBackendPlugin plg
         else mkForeignPlugin plg) := by
  cases hb : truthy plg.model.entryPoint.backend with
  | false =>
    rw [initStep_frontend env plg hb] at h
    simp only [Prod.mk.injEq, Except.ok.injEq] at h
    exact ⟨by simp [← h.2.1, hb], by simp [hb, ← h.2.2]⟩
  | true =>
    cases hi : truthy plg.lifecycle.backendInitPath with
    | false =>
      rw [initStep_backend_noInit env plg hb hi] at h
      simp only [Prod.mk.injEq, Except.ok.injEq] at h
      exact ⟨by simp [← h.2.1, hb], by simp [hb, ← h.2.2]⟩
    | true =>
      simp only [initStep, hb, hi, if_true] at h
      cases hr : (initializePlugin env (plg.lifecycle.backendInitPath.getD "") plg).2 with
      | some e => rw [hr] at h; simp at h
      | none =>
        rw [hr] at h
        simp only [Prod.mk.injEq, Except.ok.injEq] at h
        exact ⟨by simp [← h.2.1, hb], by simp [hb, ← h.2.2]⟩

/-- Characterization of a successful `init`: the backend bucket is the
backend-entry descriptors in order, each resolved by `mkBackendPlugin`;
the frontend bucket is all the remaining descriptors in order, each
resolved by `mkForeignPlugin`. -/
theorem init_ok_buckets (env : ReqEnv) :
    ∀ (raw : List PluginMetadata) (tr : List Event) (res fore : List Plugin),
    init env raw = (tr, .ok (res, fore)) →
    res = ((raw.filter fun q => truthy q.model.entryPoint.backend).map mkBackendPlugin) ∧
    fore = ((raw.filter fun q => !(truthy q.model.entryPoint.backend)).map mkForeignPlugin) := by
  intro raw
  induction raw with
  | nil =>
    intro tr res fore h
    simp only [init, Prod.mk.injEq, Except.ok.injEq] at h
    simp [← h.2.1, ← h.2.2]
  | cons plg rest ih =>
    intro tr res fore h
    simp only [init] at h
    rcases hs : initStep env plg with ⟨seg, s2⟩
    rw [hs] at h
    cases s2 with
    | error e => simp at h
    | ok bp =>
      rcases bp with ⟨isB, p⟩
      rcases hr : init env rest with ⟨tr2, r2⟩
      rw [hr] at h
      cases r2 with
      | error e => simp at h
      | ok rf =>
        rcases rf with ⟨res2, fore2⟩
        simp only [Prod.mk.injEq, Except.ok.injEq] at h
        obtain ⟨hspec1, hspec2⟩ := initStep_ok_spec env plg seg isB p hs
        obtain ⟨ihr, ihf⟩ := ih tr2 res2 fore2 (by rw [hr])
        subst hspec1
        cases hb : truthy plg.model.entryPoint.backend with
        | true =>
          simp only [hb, if_true] at hspec2 h
          subst hspec2
          simp [List.filter_cons, hb, ← h.2.1, ← h.2.2, ihr, ihf]
        | false =>
          simp [hb] at hspec2 h
          subst hspec2
          simp [List.filter_cons, hb, ← h.2.1, ← h.2.2, ihr, ihf]

/-- If `init` completes without throwing, then for every descriptor of the
input list its loop iteration completed without throwing, and the full
trace contains that iteration's event segment contiguously, in list
position. -/
theorem init_ok_segment (env : ReqEnv) :
    ∀ (raw : List PluginMetadata) (tr : List Event) (rf : List Plugin × List Plugin),
    init env raw = (tr, .ok rf) → ∀ plg ∈ raw,
    ∃ pre post seg isB p,
      initStep env plg = (seg, .ok (isB, p)) ∧ tr = pre ++ seg ++ post := by
  intro raw
  induction raw with
  | nil => intro tr rf h plg hm; simp at hm
  | cons q rest ih =>
    intro tr rf h plg hm
    simp only [init] at h
    rcases hs : initStep env q with ⟨seg, s2⟩
    rw [hs] at h
    cases s2 with
    | error e => simp at h
    | ok bp =>
      rcases bp with ⟨isB, p⟩
      rcases hr : init env rest with ⟨tr2, r2⟩
      rw [hr] at h
      cases r2 with
      | error e => simp at h
      | ok rf2 =>
        simp only [Prod.mk.injEq] at h
        rcases List.mem_cons.mp hm with hq | hq
        · subst hq
          exact ⟨[], tr2, seg, isB, p, hs, by simp [← h.1]⟩
        · obtain ⟨pre, post, seg2, isB2, p2, hstep, htr⟩ := ih tr2 rf2 hr plg hq
          exact ⟨seg ++ pre, post, seg2, isB2, p2, hstep, by simp [← h.1, htr]⟩

/-- When a backend descriptor carries a truthy initializer path and its
loop iteration completes without throwing, the iteration's trace is
exactly: the log, the initializer `require`, the `doInitialization`
invocation, then the push into the backend bucket. -/
theorem initStep_backend_init_ok (env : ReqEnv) (plg : PluginMetadata)
    (path : String)
    (hb : truthy plg.model.entryPoint.backend = true)
    (hp : plg.lifecycle.backendInitPath = some path) (hne : path ≠ "")
    (seg : List Event) (isB : Bool) (p : Plugin)
    (h : initStep env plg = (seg, .ok (isB, p))) :
    seg = [Event.logInitializing path, Event.requireMod path,
           Event.doInitialization path plg, Event.pushBackend (mkBackendPlugin plg)] ∧
    isB = true ∧ p = mkBackendPlugin plg := by
  have htp : truthy (some path) = true := by simp [truthy, hne]
  simp only [initStep, hb, hp, Option.getD_some, htp, if_true] at h
  cases henv : env path with
  | error e => simp [initializePlugin, henv] at h
  | ok m =>
    cases hdi : m.doInitialization with
    | none => simp [initializePlugin, henv, hdi] at h
    | some throws =>
      cases throws with
      | true => simp [initializePlugin, henv, hdi] at h
      | false =>
        simp [initializePlugin, henv, hdi] at h
        obtain ⟨h1, h2, h3⟩ := h
        simp_all

/-- Splitting a list by a predicate and its negation accounts for every
element exactly once. -/
theorem filter_not_filter_length {α : Type} (p : α → Bool) :
    ∀ l : List α, (l.filter p).length + (l.filter fun a => !(p a)).length = l.length := by
  intro l
  induction l with
  | nil => simp
  | cons a rest ih =>
    cases hp : p a <;> simp [List.filter_cons, hp, ← ih] <;> omega

/-! ### Claim theorems -/

/-- C1 counterexample: a descriptor declaring neither a backend nor a
frontend entry point is *not* excluded from both buckets — `init` places
it in the frontend bucket (with an `undefined` plugin path), because the
else branch never checks that a frontend entry point exists. -/
theorem init_neither_entry_in_frontend_bucket :
    init envFailAll [plgNeither] =
      ([Event.pushFrontend (mkForeignPlugin plgNeither)],
       .ok ([], [mkForeignPlugin plgNeither])) ∧
    (mkForeignPlugin plgNeither).pluginPath = none ∧
    (mkForeignPlugin plgNeither).initPath = none := ⟨rfl, rfl, rfl⟩

/-- C1 (amended): every descriptor of a successful `init` yields exactly
one `Plugin` in exactly one bucket, decided solely by whether the model
declares a truthy backend entry point: the backend bucket if it does,
the frontend bucket otherwise.  A descriptor declaring neither entry
point therefore lands in the frontend bucket (with an undefined plugin
path) rather than being excluded; its iteration performs no module
loading and cannot make `init` throw. -/
theorem init_partition (env : ReqEnv) (raw : List PluginMetadata)
    (tr : List Event) (res fore : List Plugin)
    (h : init env raw = (tr, .ok (res, fore))) :
    res = ((raw.filter fun q => truthy q.model.entryPoint.backend).map mkBackendPlugin) ∧
    fore = ((raw.filter fun q => !(truthy q.model.entryPoint.backend)).map mkForeignPlugin) ∧
    res.length + fore.length = raw.length ∧
    (∀ plg : PluginMetadata, truthy plg.model.entryPoint.backend = false →
       initStep env plg =
         ([Event.pushFrontend (mkForeignPlugin plg)], .ok (false, mkForeignPlugin plg))) := by
  obtain ⟨h1, h2⟩ := init_ok_buckets env raw tr res fore h
  refine ⟨h1, h2, ?_, fun plg hb => initStep_frontend env plg hb⟩
  rw [h1, h2]
  simp [filter_not_filter_length]

/-- Witness for `init_partition` at a concrete input. -/
theorem init_partition_witness :
    [mkBackendPlugin plgA] =
      (([plgA, plgB].filter fun q => truthy q.model.entryPoint.backend).map mkBackendPlugin) ∧
    initStep envInit plgNeither =
      ([Event.pushFrontend (mkForeignPlugin plgNeither)],
       .ok (false, mkForeignPlugin plgNeither)) :=
  ⟨(init_partition envInit [plgA, plgB] _ _ _ rfl).1,
   (init_partition envInit [plgA, plgB] _ _ _ rfl).2.2.2 plgNeither rfl⟩

/-- C3: for every descriptor with a truthy backend entry point and a
named (nonempty) `backendInitPath`, a successful `init` has loaded the
module at that path (`require`) and invoked its `doInitialization` hook
with the descriptor, strictly before pushing the corresponding `Plugin`
into the backend bucket it returns. -/
theorem init_initializer_before_backend_push
    (env : ReqEnv) (raw : List PluginMetadata) (tr : List Event)
    (res fore : List Plugin) (plg : PluginMetadata) (path : String)
    (h : init env raw = (tr, .ok (res, fore)))
    (hm : plg ∈ raw)
    (hb : truthy plg.model.entryPoint.backend = true)
    (hp : plg.lifecycle.backendInitPath = some path) (hne : path ≠ "") :
    List.Sublist
      [Event.requireMod path, Event.doInitialization path plg,
       Event.pushBackend (mkBackendPlugin plg)] tr ∧
    mkBackendPlugin plg ∈ res := by
  obtain ⟨pre, post, seg, isB, p, hstep, htr⟩ :=
    init_ok_segment env raw tr (res, fore) h plg hm
  obtain ⟨hseg, hisB, hpp⟩ := initStep_backend_init_ok env plg path hb hp hne seg isB p hstep
  constructor
  · rw [htr, hseg]
    refine List.Sublist.trans ?_ (List.sublist_append_left _ post)
    refine List.Sublist.trans ?_ (List.sublist_append_right pre _)
    exact List.Sublist.cons _ (List.Sublist.refl _)
  · obtain ⟨h1, _⟩ := init_ok_buckets env raw tr res fore h
    rw [h1]
    exact List.mem_map_of_mem _ (List.mem_filter.mpr ⟨hm, hb⟩)

/-- Witness for `init_initializer_before_backend_push` at a concrete input. -/
theorem init_initializer_before_backend_push_witness :
    List.Sublist
      [Event.requireMod "c-init.js", Event.doInitialization "c-init.js" plgC,
       Event.pushBackend (mkBackendPlugin plgC)]
      [Event.logInitializing "c-init.js", Event.requireMod "c-init.js",
       Event.doInitialization "c-init.js" plgC, Event.pushBackend (mkBackendPlugin plgC)] ∧
    mkBackendPlugin plgC ∈ [mkBackendPlugin plgC] :=
  init_initializer_before_backend_push envInit [plgC] _ _ _ plgC "c-init.js" rfl
    (by simp) (by decide) rfl (by decide)

/-- C6: on descriptors `[{backend:"a.js"}, {frontend:"b.js"},
{backend:"c.js", backendInitPath:"c-init.js"}]`, `init` returns the
backend bucket `[a, c]` in that order and the frontend bucket `[b]`, and
the trace shows `c-init.js` being required and its `doInitialization`
hook invoked before `c` is pushed into the backend bucket. -/
theorem init_scenario_abc :
    init envInit [plgA, plgB, plgC] =
      ([Event.pushBackend (mkBackendPlugin plgA),
        Event.pushFrontend (mkForeignPlugin plgB),
        Event.logInitializing "c-init.js", Event.requireMod "c-init.js",
        Event.doInitialization "c-init.js" plgC,
        Event.pushBackend (mkBackendPlugin plgC)],
       .ok ([mkBackendPlugin plgA, mkBackendPlugin plgC], [mkForeignPlugin plgB])) ∧
    (mkBackendPlugin plgA).pluginPath = some "a.js" ∧
    (mkBackendPlugin plgC).pluginPath = some "c.js" ∧
    (mkForeignPlugin plgB).pluginPath = some "b.js" := ⟨rfl, rfl, rfl, rfl⟩

/-- C7: a backend descriptor whose lifecycle names no `backendInitPath`
causes no initializer loading (its whole loop iteration is just the push
into the backend bucket, for any module environment, so it cannot fail),
and the `Plugin` it contributes — which a successful `init` returns in
the backend bucket — has `initPath` equal to the empty string. -/
theorem init_backend_no_initializer (env : ReqEnv) (plg : PluginMetadata)
    (hb : truthy plg.model.entryPoint.backend = true)
    (hp : plg.lifecycle.backendInitPath = none) :
    initStep env plg =
      ([Event.pushBackend (mkBackendPlugin plg)], .ok (true, mkBackendPlugin plg)) ∧
    (mkBackendPlugin plg).initPath = some "" ∧
    (∀ raw tr res fore, init env raw = (tr, .ok (res, fore)) → plg ∈ raw →
       mkBackendPlugin plg ∈ res) := by
  have hi : truthy plg.lifecycle.backendInitPath = false := by simp [truthy, hp]
  refine ⟨initStep_backend_noInit env plg hb hi, ?_, ?_⟩
  · simp [mkBackendPlugin, hi]
  · intro raw tr res fore h hm
    obtain ⟨h1, _⟩ := init_ok_buckets env raw tr res fore h
    rw [h1]
    exact List.mem_map_of_mem _ (List.mem_filter.mpr ⟨hm, hb⟩)

/-- Witness for `init_backend_no_initializer` at a concrete input. -/
theorem init_backend_no_initializer_witness :
    initStep envFailAll plgA =
      ([Event.pushBackend (mkBackendPlugin plgA)], .ok (true, mkBackendPlugin plgA)) ∧
    (mkBackendPlugin plgA).initPath = some "" ∧
    mkBackendPlugin plgA ∈ [mkBackendPlugin plgA] :=
  have h := init_backend_no_initializer envFailAll plgA (by decide) rfl
  ⟨h.1, h.2.1, h.2.2 [plgA] _ _ _ rfl (by simp)⟩

/-- C8: a descriptor whose model declares only a frontend entry point is
placed, unexecuted, in the frontend bucket: its whole loop iteration is
the single push event — no `require`, no `doInitialization`, no `doLoad`
— and a successful `init` returns its `Plugin` in the frontend bucket. -/
theorem init_frontend_only_descriptor (env : ReqEnv) (plg : PluginMetadata)
    (hb : truthy plg.model.entryPoint.backend = false)
    (_hf : truthy plg.model.entryPoint.frontend = true) :
    initStep env plg =
      ([Event.pushFrontend (mkForeignPlugin plg)], .ok (false, mkForeignPlugin plg)) ∧
    (mkForeignPlugin plg).pluginPath = plg.model.entryPoint.frontend ∧
    (∀ raw tr res fore, init env raw = (tr, .ok (res, fore)) → plg ∈ raw →
       mkForeignPlugin plg ∈ fore) := by
  refine ⟨initStep_frontend env plg hb, rfl, ?_⟩
  intro raw tr res fore h hm
  obtain ⟨_, h2⟩ := init_ok_buckets env raw tr res fore h
  rw [h2]
  exact List.mem_map_of_mem _ (List.mem_filter.mpr ⟨hm, by simp [hb]⟩)

/-- Witness for `init_frontend_only_descriptor` at a concrete input. -/
theorem init_frontend_only_descriptor_witness :
    initStep envFailAll plgB =
      ([Event.pushFrontend (mkForeignPlugin plgB)], .ok (false, mkForeignPlugin plgB)) ∧
    (mkForeignPlugin plgB).pluginPath = plgB.model.entryPoint.frontend ∧
    mkForeignPlugin plgB ∈ [mkForeignPlugin plgB] :=
  have h := init_frontend_only_descriptor envFailAll plgB rfl (by decide)
  ⟨h.1, h.2.1, h.2.2 [plgB] _ _ _ rfl (by simp)⟩

/-- C2 counterexample: a throw from the initializer module's `doLoad`
hook is *not* caught — `loadPlugin` itself throws (the try/catch only
wraps the final `require(plugin.pluginPath)`). -/
theorem loadPlugin_doLoad_throw_escapes :
    loadPlugin envDoLoadThrows "ctx.js" samplePlugin =
      ([Event.logLoadPlugin (some "main.js"), Event.requireMod "ctx.js",
        Event.doLoad "ctx.js" samplePlugin], .error JsErr.hookThrew) := rfl

/-- C2 (amended): only a failure of the plugin's main-entry `require` is
caught and logged — in that case `loadPlugin` completes normally, so the
overall call does not fail (and, the manager keeping no failure state, a
later `loadPlugin` for another extension is unaffected).  A throw from
`require(contextPath)` or from the `doLoad` hook propagates out of
`loadPlugin` uncaught. -/
theorem loadPlugin_error_scope (env : ReqEnv) (cp : String) (p : Plugin) :
    (∀ e, env cp = .error e → (loadPlugin env cp p).2 = .error e) ∧
    (∀ m0, env cp = .ok m0 → m0.doLoad = some true →
       (loadPlugin env cp p).2 = .error JsErr.hookThrew) ∧
    (∀ m0, env cp = .ok m0 → m0.doLoad ≠ some true →
       (∃ v, (loadPlugin env cp p).2 = .ok v) ∧
       (∀ e, requireOpt env p.pluginPath = .error e →
          (loadPlugin env cp p).2 = .ok JsValue.undef ∧
          Event.consoleError e ∈ (loadPlugin env cp p).1)) := by
  refine ⟨?_, ?_, ?_⟩
  · intro e he
    simp [loadPlugin, he]
  · intro m0 hm0 hdl
    simp [loadPlugin, hm0, hdl]
  · intro m0 hm0 hdl
    have hnd : m0.doLoad = none ∨ m0.doLoad = some false := by
      cases hdl2 : m0.doLoad with
      | none => exact Or.inl rfl
      | some b =>
        cases b with
        | true => exact absurd hdl2 hdl
        | false => exact Or.inr rfl
    cases hro : requireOpt env p.pluginPath with
    | ok m =>
      constructor
      · exact ⟨.module m, by rcases hnd with h2 | h2 <;> simp [loadPlugin, hm0, h2, hro]⟩
      · intro e he
        exact absurd he (by simp)
    | error e0 =>
      constructor
      · exact ⟨.undef, by rcases hnd with h2 | h2 <;> simp [loadPlugin, hm0, h2, hro]⟩
      · intro e he
        obtain rfl : e0 = e := Except.error.inj he
        rcases hnd with h2 | h2 <;> simp [loadPlugin, hm0, h2, hro]

/-- Witness for `loadPlugin_error_scope` at a concrete input. -/
theorem loadPlugin_error_scope_witness :
    (loadPlugin envMainFails "ctx.js" samplePlugin).2 = .ok JsValue.undef ∧
    Event.consoleError (.thrown "load failed") ∈
      (loadPlugin envMainFails "ctx.js" samplePlugin).1 :=
  ((loadPlugin_error_scope envMainFails "ctx.js" samplePlugin).2.2 modPlain rfl
      (by decide)).2 (.thrown "load failed") rfl

/-- C5 counterexample: the call's runtime result does carry information —
the body ends in `return require(plugin.pluginPath)`, so a successful
call returns the main module's exports while a caught load failure
returns `undefined`. -/
theorem loadPlugin_result_carries_information :
    (loadPlugin envPlain "ctx.js" samplePlugin).2 = .ok (JsValue.module modPlain) ∧
    (loadPlugin envMainFails "ctx.js" samplePlugin).2 = .ok JsValue.undef ∧
    JsValue.module modPlain ≠ JsValue.undef := ⟨rfl, rfl, by simp⟩

/-- C5 (amended): `loadPlugin` is declared `void` and caught failures are
reported via `console.error`; but because the body ends in
`return require(plugin.pluginPath)`, at runtime a successful call
returns the main module's exports while a caught main-require failure
returns `undefined` — the runtime result distinguishes the outcomes. -/
theorem loadPlugin_runtime_result (env : ReqEnv) (cp : String) (p : Plugin)
    (m0 : JsModule) (hcp : env cp = .ok m0) (hdl : m0.doLoad ≠ some true) :
    (∀ m, requireOpt env p.pluginPath = .ok m →
       (loadPlugin env cp p).2 = .ok (JsValue.module m)) ∧
    (∀ e, requireOpt env p.pluginPath = .error e →
       (loadPlugin env cp p).2 = .ok JsValue.undef ∧
       Event.consoleError e ∈ (loadPlugin env cp p).1) := by
  have hnd : m0.doLoad = none ∨ m0.doLoad = some false := by
    cases hdl2 : m0.doLoad with
    | none => exact Or.inl rfl
    | some b =>
      cases b with
      | true => exact absurd hdl2 hdl
      | false => exact Or.inr rfl
  constructor
  · intro m hro
    rcases hnd with h2 | h2 <;> simp [loadPlugin, hcp, h2, hro]
  · intro e hro
    rcases hnd with h2 | h2 <;> simp [loadPlugin, hcp, h2, hro]

/-- Witness for `loadPlugin_runtime_result` at a concrete input. -/
theorem loadPlugin_runtime_result_witness :
    (loadPlugin envPlain "ctx.js" samplePlugin).2 = .ok (JsValue.module modPlain) :=
  (loadPlugin_runtime_result envPlain "ctx.js" samplePlugin modPlain rfl
    (by decide)).1 modPlain rfl

/-- C9: `loadPlugin` requires the module at `contextPath` unconditionally,
immediately after its log line and before anything else — whatever the
module exports and whether or not the plugin has an initializer — and
the `doLoad` invocation happens exactly when that module loaded
successfully and exports a `doLoad` property. -/
theorem loadPlugin_context_require_unconditional (env : ReqEnv) (cp : String) (p : Plugin) :
    (loadPlugin env cp p).1.take 2 =
      [Event.logLoadPlugin p.pluginPath, Event.requireMod cp] ∧
    ((∃ m, env cp = .ok m ∧ m.doLoad.isSome) ↔
      Event.doLoad cp p ∈ (loadPlugin env cp p).1) := by
  cases henv : env cp with
  | error e => simp [loadPlugin, henv]
  | ok m =>
    cases hdl : m.doLoad with
    | none =>
      cases hro : requireOpt env p.pluginPath with
      | ok m2 => simp [loadPlugin, henv, hdl, hro]
      | error e => simp [loadPlugin, henv, hdl, hro]
    | some b =>
      cases b with
      | true => simp [loadPlugin, henv, hdl]
      | false =>
        cases hro : requireOpt env p.pluginPath with
        | ok m2 => simp [loadPlugin, henv, hdl, hro]
        | error e => simp [loadPlugin, henv, hdl, hro]

/-- Witness for `loadPlugin_context_require_unconditional` at a concrete
input. -/
theorem loadPlugin_context_require_unconditional_witness :
    (loadPlugin envDoLoadThrows "ctx.js" samplePlugin).1.take 2 =
      [Event.logLoadPlugin (some "main.js"), Event.requireMod "ctx.js"] :=
  (loadPlugin_context_require_unconditional envDoLoadThrows "ctx.js" samplePlugin).1

/-- C4: a decode failure on an inbound message is caught and logged by
the handler, the malformed frame is dropped — no subscriber is invoked —
and no exception escapes (so the host process keeps running). -/
theorem onMessage_decode_failure (parse : String → Except JsErr Frame)
    (subs : List Subscriber) (msg : String) (e : JsErr)
    (h : parse msg = .error e) :
    onMessage parse subs msg =
      { delivered := [], logged := some e, uncaught := none } := by
  simp [onMessage, onMessageBody, h]

/-- Witness for `onMessage_decode_failure` at a concrete input. -/
theorem onMessage_decode_failure_witness :
    onMessage (fun _ => .error JsErr.typeError) [fun _ => some JsErr.hookThrew] "bad" =
      { delivered := [], logged := some JsErr.typeError, uncaught := none } :=
  onMessage_decode_failure _ _ "bad" JsErr.typeError rfl

/-- C10: the handler's try/catch encloses the synchronous dispatch as
well as the decoding, so an exception thrown by a subscriber while
handling a successfully decoded frame is also caught and logged, and no
exception escapes the handler (the host process keeps running). -/
theorem onMessage_subscriber_throw_caught (parse : String → Except JsErr Frame)
    (subs : List Subscriber) (msg : String) (f : Frame) (e : JsErr)
    (hp : parse msg = .ok f) (hf : (fire subs f).2 = some e) :
    onMessage parse subs msg =
      { delivered := (fire subs f).1, logged := some e, uncaught := none } := by
  simp [onMessage, onMessageBody, hp, hf]

/-- Witness for `onMessage_subscriber_throw_caught` at a concrete input. -/
theorem onMessage_subscriber_throw_caught_witness :
    onMessage (fun _ => .ok 0) [fun _ => some JsErr.hookThrew] "msg" =
      { delivered := [0], logged := some JsErr.hookThrew, uncaught := none } :=
  onMessage_subscriber_throw_caught _ _ "msg" 0 JsErr.hookThrew rfl rfl

end PluginHost
